import Mathlib

/-!
Verification development for the ogame.mod daemon (Go sources: the HTTP
handler layer `part_000`, the CLI entry point `part_001`, and the v7 page
extractor `pkg/extractor/v7/extractor.go`).

The Go code is shallowly embedded: each handler becomes a pure Lean function
from its inputs (parsed route/form data and the outcome of the underlying bot
operation) to the HTTP status and JSON body it writes.  Machine integers
(`int64`) are modelled as `Int`; `strconv.ParseInt` as `goParseInt`;
Go's multi-value `(T, error)` returns as `Except`/products.  Code of this
repository that is not under `src/` (the ogame bot library: error values,
`bot.SendFleet`, the v6 extractor and the lowercase v7 extraction helpers)
is modelled from the spec; every such definition carries a doc comment
starting with `Modelled from the spec:`.
-/

/-- Model of the Go `APIResp` struct (`part_000` lines 21-27): the JSON body
every handler writes, with `Result interface\x7b\x7d` rendered as `Option α`. -/
structure APIResp (α : Type) where
  status : String
  code : Nat
  message : String
  result : Option α
deriving DecidableEq

/-- Model of `SuccessResp` (`part_000` lines 29-32): status "ok", code 200. -/
def SuccessResp {α : Type} (data : Option α) : APIResp α :=
  { status := "ok", code := 200, message := "", result := data }

/-- Model of `ErrorResp` (`part_000` lines 34-37): status "error", no result. -/
def ErrorResp {α : Type} (code : Nat) (message : String) : APIResp α :=
  { status := "error", code := code, message := message, result := none }

/-! ## SendFleetHandler: data model -/

/-- Model of `ogame.Quantifiable`: a ship kind with a count. -/
structure Quantifiable where
  id : Int
  nbr : Int
deriving DecidableEq

/-- Model of `ogame.Coordinate` (galaxy, system, position, celestial type).
The Go field `Type` is rendered `ctype`. -/
structure Coordinate where
  galaxy : Int
  system : Int
  position : Int
  ctype : Int
deriving DecidableEq

/-- Model of `ogame.Resources` restricted to the three fields the fleet form
sets (metal, crystal, deuterium). -/
structure Resources where
  metal : Int
  crystal : Int
  deuterium : Int
deriving DecidableEq

/-- Modelled from the spec: the `Transport` mission id of the game library
(not under `src/`); the concrete numeral is immaterial to the claims. -/
def Transport : Int := 3

/-- Modelled from the spec: the `HundredPercent` speed value of the game
library (not under `src/`), the "speed 100 percent" default. -/
def HundredPercent : Int := 10

/-- Modelled from the spec: the `PlanetType` celestial type of the game
library (not under `src/`). -/
def PlanetType : Int := 1

/-- Modelled from the spec: `IsShipID` of the game library (not under
`src/`), deciding whether an id denotes a ship kind. -/
def IsShipID (id : Int) : Bool :=
  ([202, 203, 204, 205, 206, 207, 208, 209, 210, 211,
    212, 213, 214, 215, 217, 218, 219] : List Int).contains id

/-- Model of `ogame.Fleet` restricted to an identifier; the claims never
inspect a successfully sent fleet beyond passing it through. -/
structure Fleet where
  id : Int := 0
deriving DecidableEq

/-- The mutable locals of `SendFleetHandler` (`part_000` lines 816-822): the
arguments eventually passed to `bot.SendFleet`. -/
structure SFState where
  ships : List Quantifiable
  whereC : Coordinate
  mission : Int
  duration : Int
  unionID : Int
  payload : Resources
  speed : Int
deriving DecidableEq

/-- Initial values of the handler locals before the form loop
(`part_000` lines 816-822). -/
def initialSFState : SFState :=
  { ships := []
    whereC := { galaxy := 0, system := 0, position := 0, ctype := PlanetType }
    mission := Transport
    duration := 0
    unionID := 0
    payload := { metal := 0, crystal := 0, deuterium := 0 }
    speed := HundredPercent }

/-- How the form-parsing loop can abort: an early HTTP 400 JSON response
(`badRequest`), or a Go runtime index-out-of-range failure (`crash`, possible
when a `ships` value has no comma or a form key has no values). -/
inductive FormAbort
  | badRequest (msg : String)
  | crash
deriving DecidableEq

/-- Model of Go `strconv.ParseInt(s, 10, 64)`: an optional sign followed by
at least one decimal digit; anything else is a parse error.  (The int64
overflow error is not modelled; no claim involves values near 2^63.) -/
def digitsToNat : List Char → Nat → Option Nat
  | [], acc => some acc
  | c :: rest, acc =>
    if c.isDigit then digitsToNat rest (acc * 10 + (c.toNat - 48)) else none

/-- Model of Go `strconv.ParseInt(s, 10, 64)`, see `digitsToNat`. -/
def goParseInt (s : String) : Option Int :=
  match s.data with
  | [] => none
  | '-' :: rest =>
    if rest.isEmpty then none else (digitsToNat rest 0).map (fun n => -(n : Int))
  | '+' :: rest =>
    if rest.isEmpty then none else (digitsToNat rest 0).map (fun n => (n : Int))
  | l => (digitsToNat l 0).map (fun n => (n : Int))

/-- The `values[0]` access the handler performs on each non-`ships` key. -/
def firstVal (values : List String) : Except FormAbort String :=
  match values with
  | [] => Except.error FormAbort.crash
  | v :: _ => Except.ok v

/-- One entry of the `ships` form key (`part_000` lines 826-837): split on
",", parse and validate the ship id, then parse and validate the count. -/
def parseShipEntry (s : String) : Except FormAbort Quantifiable :=
  let a := s.splitOn ","
  let a0 := a.headD ""
  match goParseInt a0 with
  | none => Except.error (FormAbort.badRequest ("invalid ship id " ++ a0))
  | some shipID =>
    if IsShipID shipID = false then
      Except.error (FormAbort.badRequest ("invalid ship id " ++ a0))
    else
      match a[1]? with
      | none => Except.error FormAbort.crash
      | some a1 =>
        match goParseInt a1 with
        | none => Except.error (FormAbort.badRequest ("invalid nbr " ++ a1))
        | some nbr =>
          if nbr < 0 then Except.error (FormAbort.badRequest ("invalid nbr " ++ a1))
          else Except.ok { id := shipID, nbr := nbr }

/-- All entries of the `ships` form key, in order (`part_000` line 826). -/
def parseShips : List String → Except FormAbort (List Quantifiable)
  | [] => Except.ok []
  | s :: rest =>
    match parseShipEntry s with
    | Except.error e => Except.error e
    | Except.ok q =>
      match parseShips rest with
      | Except.error e => Except.error e
      | Except.ok qs => Except.ok (q :: qs)

/-- An integer form field parsed with `strconv.ParseInt` and an optional
lower/upper bound check, failing with the given 400 message
(mirrors the repeated pattern of `part_000` lines 838-901). -/
def parseIntField (values : List String) (lo hi : Option Int) (emsg : String) :
    Except FormAbort Int :=
  match firstVal values with
  | Except.error e => Except.error e
  | Except.ok v =>
    match goParseInt v with
    | none => Except.error (FormAbort.badRequest emsg)
    | some n =>
      if (match lo with | some l => decide (n < l) | none => false) then
        Except.error (FormAbort.badRequest emsg)
      else if (match hi with | some h => decide (h < n) | none => false) then
        Except.error (FormAbort.badRequest emsg)
      else Except.ok n

/-- The cases of the `switch key` statement of the form loop
(`part_000` lines 823-903); `unknown` is every key the switch does not
mention. -/
inductive FormField
  | ships
  | speed
  | galaxy
  | system
  | position
  | ctypeF
  | mission
  | duration
  | unionF
  | metal
  | crystal
  | deuterium
  | unknown
deriving DecidableEq

/-- Which switch case a form key selects (`part_000` lines 824-901). -/
def keyField : String → FormField
  | "ships" => .ships
  | "speed" => .speed
  | "galaxy" => .galaxy
  | "system" => .system
  | "position" => .position
  | "type" => .ctypeF
  | "mission" => .mission
  | "duration" => .duration
  | "union" => .unionF
  | "metal" => .metal
  | "crystal" => .crystal
  | "deuterium" => .deuterium
  | _ => .unknown

/-- The form key that selects each switch case (`unknown` gets ""). -/
def fieldName : FormField → String
  | .ships => "ships"
  | .speed => "speed"
  | .galaxy => "galaxy"
  | .system => "system"
  | .position => "position"
  | .ctypeF => "type"
  | .mission => "mission"
  | .duration => "duration"
  | .unionF => "union"
  | .metal => "metal"
  | .crystal => "crystal"
  | .deuterium => "deuterium"
  | .unknown => ""

/-- One iteration of the `switch key` body of the form loop
(`part_000` lines 823-903).  Unknown keys fall through unchanged, exactly as
a Go `switch` with no `default`. -/
def processKey (st : SFState) (kv : String × List String) : Except FormAbort SFState :=
  match keyField kv.1 with
  | FormField.ships =>
    match parseShips kv.2 with
    | Except.error e => Except.error e
    | Except.ok qs => Except.ok { st with ships := st.ships ++ qs }
  | FormField.speed =>
    match parseIntField kv.2 (some 0) (some 10) "invalid speed" with
    | Except.error e => Except.error e
    | Except.ok n => Except.ok { st with speed := n }
  | FormField.galaxy =>
    match parseIntField kv.2 none none "invalid galaxy" with
    | Except.error e => Except.error e
    | Except.ok n => Except.ok { st with whereC := { st.whereC with galaxy := n } }
  | FormField.system =>
    match parseIntField kv.2 none none "invalid system" with
    | Except.error e => Except.error e
    | Except.ok n => Except.ok { st with whereC := { st.whereC with system := n } }
  | FormField.position =>
    match parseIntField kv.2 none none "invalid position" with
    | Except.error e => Except.error e
    | Except.ok n => Except.ok { st with whereC := { st.whereC with position := n } }
  | FormField.ctypeF =>
    match parseIntField kv.2 none none "invalid type" with
    | Except.error e => Except.error e
    | Except.ok n => Except.ok { st with whereC := { st.whereC with ctype := n } }
  | FormField.mission =>
    match parseIntField kv.2 none none "invalid mission" with
    | Except.error e => Except.error e
    | Except.ok n => Except.ok { st with mission := n }
  | FormField.duration =>
    match parseIntField kv.2 none none "invalid duration" with
    | Except.error e => Except.error e
    | Except.ok n => Except.ok { st with duration := n }
  | FormField.unionF =>
    match parseIntField kv.2 none none "invalid union id" with
    | Except.error e => Except.error e
    | Except.ok n => Except.ok { st with unionID := n }
  | FormField.metal =>
    match parseIntField kv.2 (some 0) none "invalid metal" with
    | Except.error e => Except.error e
    | Except.ok n => Except.ok { st with payload := { st.payload with metal := n } }
  | FormField.crystal =>
    match parseIntField kv.2 (some 0) none "invalid crystal" with
    | Except.error e => Except.error e
    | Except.ok n => Except.ok { st with payload := { st.payload with crystal := n } }
  | FormField.deuterium =>
    match parseIntField kv.2 (some 0) none "invalid deuterium" with
    | Except.error e => Except.error e
    | Except.ok n => Except.ok { st with payload := { st.payload with deuterium := n } }
  | FormField.unknown =>
    Except.ok st

/-- The whole form loop (`part_000` lines 823-903): fold `processKey` over the
form entries, stopping at the first abort.  Go iterates the `PostForm` map in
an unspecified order; since every key touches its own locals, any enumeration
order of the (distinct-key) entries yields the same final state, and we fix
the list order. -/
def parseSendFleetForm : List (String × List String) → SFState → Except FormAbort SFState
  | [], st => Except.ok st
  | kv :: rest, st =>
    match processKey st kv with
    | Except.error e => Except.error e
    | Except.ok st2 => parseSendFleetForm rest st2

/-- Whether a form contains a given key. -/
def hasKey (form : List (String × List String)) (k : String) : Bool :=
  form.any (fun kv => kv.1 = k)

/-! ## SendFleetHandler: the error dispatch after `bot.SendFleet` -/

/-- The errors `SendFleetHandler` distinguishes (`part_000` lines 906-919):
the thirteen named precondition-violation errors of the ogame library, plus
`other` for any error not in that list.  The named error values themselves
live outside `src/`; here each is a distinct constructor. -/
inductive FleetErr
  | invalidPlanetID
  | noShipSelected
  | uninhabitedPlanet
  | noDebrisField
  | playerInVacationMode
  | adminOrGM
  | noAstrophysics
  | noobProtection
  | playerTooStrong
  | noMoonAvailable
  | noRecyclerAvailable
  | noEventsRunning
  | planetAlreadyReservedForRelocation
  | other (msg : String)
deriving DecidableEq

/-- Modelled from the spec: the `err.Error()` message of each named
precondition error ("Each violated precondition returns a distinct, named
reason").  The error values are defined in the ogame library, not under
`src/`. -/
def FleetErr.message : FleetErr → String
  | .invalidPlanetID => "invalid planet id"
  | .noShipSelected => "no ships to send"
  | .uninhabitedPlanet => "uninhabited planet"
  | .noDebrisField => "no debris field"
  | .playerInVacationMode => "player in vacation mode"
  | .adminOrGM => "target is admin or GM"
  | .noAstrophysics => "astrophysics not researched"
  | .noobProtection => "noob protection"
  | .playerTooStrong => "player is too strong"
  | .noMoonAvailable => "no moon available"
  | .noRecyclerAvailable => "no recycler available"
  | .noEventsRunning => "no events running"
  | .planetAlreadyReservedForRelocation => "planet already reserved for relocation"
  | .other m => m

/-- Whether the error is one of the thirteen named errors the handler's
`err == Err...` disjunction matches (`part_000` lines 906-919). -/
def FleetErr.isPrecondition : FleetErr → Bool
  | .other _ => false
  | _ => true

/-- The thirteen named precondition errors, as listed in the handler. -/
def preconditionErrList : List FleetErr :=
  [FleetErr.invalidPlanetID, FleetErr.noShipSelected, FleetErr.uninhabitedPlanet,
   FleetErr.noDebrisField, FleetErr.playerInVacationMode, FleetErr.adminOrGM,
   FleetErr.noAstrophysics, FleetErr.noobProtection, FleetErr.playerTooStrong,
   FleetErr.noMoonAvailable, FleetErr.noRecyclerAvailable, FleetErr.noEventsRunning,
   FleetErr.planetAlreadyReservedForRelocation]

/-- The response `SendFleetHandler` writes once `bot.SendFleet` has returned
(`part_000` lines 905-925): a named precondition error gives HTTP 400 with
the error's message, any other error gives HTTP 500 with its message, and
success gives HTTP 200 carrying the fleet. -/
def sendFleetRespond (res : Except FleetErr Fleet) : Nat × APIResp Fleet :=
  match res with
  | Except.error e =>
    if e.isPrecondition then (400, ErrorResp 400 e.message)
    else (500, ErrorResp 500 e.message)
  | Except.ok fleet => (200, SuccessResp (some fleet))

/-- Modelled from the spec: `bot.SendFleet` is not under `src/`.  Per §4.3
the validator fails fast with zero network calls on a violated precondition,
the first precondition being "at least one ship selected"; on success the
dispatcher submits the action and reparses the resulting page (one remote
round trip here).  The second component counts remote requests issued. -/
def sendFleetModel (st : SFState) : Except FleetErr Fleet × Nat :=
  if st.ships.all (fun q => q.nbr ≤ 0) then
    (Except.error FleetErr.noShipSelected, 0)
  else
    (Except.ok { id := 1 }, 1)

/-! ## SendFleetHandler: parsing lemmas -/

/-- A key selecting a switch case other than `unknown` is that case's form
key. -/
theorem keyField_name (k : String) :
    keyField k = FormField.unknown ∨ k = fieldName (keyField k) := by
  unfold keyField
  split
  all_goals simp_all [fieldName]

/-- One loop iteration only changes the locals of the case its key selects. -/
theorem processKey_fields (st st2 : SFState) (kv : String × List String)
    (h : processKey st kv = Except.ok st2) :
    (keyField kv.1 ≠ FormField.ships → st2.ships = st.ships) ∧
    (keyField kv.1 ≠ FormField.speed → st2.speed = st.speed) ∧
    (keyField kv.1 ≠ FormField.mission → st2.mission = st.mission) ∧
    (keyField kv.1 ≠ FormField.ctypeF → st2.whereC.ctype = st.whereC.ctype) ∧
    (keyField kv.1 ≠ FormField.metal → st2.payload.metal = st.payload.metal) ∧
    (keyField kv.1 ≠ FormField.crystal → st2.payload.crystal = st.payload.crystal) ∧
    (keyField kv.1 ≠ FormField.deuterium → st2.payload.deuterium = st.payload.deuterium) ∧
    (keyField kv.1 ≠ FormField.duration → st2.duration = st.duration) ∧
    (keyField kv.1 ≠ FormField.unionF → st2.unionID = st.unionID) := by
  unfold processKey at h
  split at h <;> try split at h
  all_goals first
    | exact Except.noConfusion h
    | (injection h with h; subst h;
       refine ⟨?_,?_,?_,?_,?_,?_,?_,?_,?_⟩ <;> intro hn <;>
         first | rfl | exact (hn (by assumption)).elim)

/-- The whole form loop only changes the locals of cases whose keys occur in
the form. -/
theorem parseSendFleetForm_fields (form : List (String × List String)) :
    ∀ (st st2 : SFState), parseSendFleetForm form st = Except.ok st2 →
    ((∀ kv ∈ form, keyField kv.1 ≠ FormField.ships) → st2.ships = st.ships) ∧
    ((∀ kv ∈ form, keyField kv.1 ≠ FormField.speed) → st2.speed = st.speed) ∧
    ((∀ kv ∈ form, keyField kv.1 ≠ FormField.mission) → st2.mission = st.mission) ∧
    ((∀ kv ∈ form, keyField kv.1 ≠ FormField.ctypeF) → st2.whereC.ctype = st.whereC.ctype) ∧
    ((∀ kv ∈ form, keyField kv.1 ≠ FormField.metal) → st2.payload.metal = st.payload.metal) ∧
    ((∀ kv ∈ form, keyField kv.1 ≠ FormField.crystal) → st2.payload.crystal = st.payload.crystal) ∧
    ((∀ kv ∈ form, keyField kv.1 ≠ FormField.deuterium) → st2.payload.deuterium = st.payload.deuterium) ∧
    ((∀ kv ∈ form, keyField kv.1 ≠ FormField.duration) → st2.duration = st.duration) ∧
    ((∀ kv ∈ form, keyField kv.1 ≠ FormField.unionF) → st2.unionID = st.unionID) := by
  induction form with
  | nil =>
    intro st st2 h
    unfold parseSendFleetForm at h
    injection h with h
    subst h
    exact ⟨fun _ => rfl, fun _ => rfl, fun _ => rfl, fun _ => rfl, fun _ => rfl,
           fun _ => rfl, fun _ => rfl, fun _ => rfl, fun _ => rfl⟩
  | cons kv rest ih =>
    intro st st2 h
    unfold parseSendFleetForm at h
    cases hp : processKey st kv with
    | error e => rw [hp] at h; exact Except.noConfusion h
    | ok st1 =>
      rw [hp] at h
      obtain ⟨a1, a2, a3, a4, a5, a6, a7, a8, a9⟩ := ih st1 st2 h
      obtain ⟨b1, b2, b3, b4, b5, b6, b7, b8, b9⟩ := processKey_fields st st1 kv hp
      refine ⟨?_, ?_, ?_, ?_, ?_, ?_, ?_, ?_, ?_⟩ <;> intro hall
      · exact (a1 (fun kv2 hm => hall kv2 (List.mem_cons_of_mem kv hm))).trans
          (b1 (hall kv (List.mem_cons_self kv rest)))
      · exact (a2 (fun kv2 hm => hall kv2 (List.mem_cons_of_mem kv hm))).trans
          (b2 (hall kv (List.mem_cons_self kv rest)))
      · exact (a3 (fun kv2 hm => hall kv2 (List.mem_cons_of_mem kv hm))).trans
          (b3 (hall kv (List.mem_cons_self kv rest)))
      · exact (a4 (fun kv2 hm => hall kv2 (List.mem_cons_of_mem kv hm))).trans
          (b4 (hall kv (List.mem_cons_self kv rest)))
      · exact (a5 (fun kv2 hm => hall kv2 (List.mem_cons_of_mem kv hm))).trans
          (b5 (hall kv (List.mem_cons_self kv rest)))
      · exact (a6 (fun kv2 hm => hall kv2 (List.mem_cons_of_mem kv hm))).trans
          (b6 (hall kv (List.mem_cons_self kv rest)))
      · exact (a7 (fun kv2 hm => hall kv2 (List.mem_cons_of_mem kv hm))).trans
          (b7 (hall kv (List.mem_cons_self kv rest)))
      · exact (a8 (fun kv2 hm => hall kv2 (List.mem_cons_of_mem kv hm))).trans
          (b8 (hall kv (List.mem_cons_self kv rest)))
      · exact (a9 (fun kv2 hm => hall kv2 (List.mem_cons_of_mem kv hm))).trans
          (b9 (hall kv (List.mem_cons_self kv rest)))

/-- A form without the key of switch case `f` never selects case `f`. -/
theorem not_hasKey_keyField (form : List (String × List String)) (f : FormField)
    (hf : f ≠ FormField.unknown) (hk : hasKey form (fieldName f) = false) :
    ∀ kv ∈ form, keyField kv.1 ≠ f := by
  intro kv hm he
  rcases keyField_name kv.1 with h0 | h0
  · rw [he] at h0
    exact hf h0
  · rw [he] at h0
    have hany : form.any (fun kv2 => kv2.1 = fieldName f) = true :=
      List.any_eq_true.mpr ⟨kv, hm, by simp [h0]⟩
    rw [hasKey, hany] at hk
    exact Bool.noConfusion hk

/-! ## Claim C1 -/

/-- C1: in `SendFleetHandler`, each of the thirteen named precondition
errors of `bot.SendFleet` yields HTTP 400 carrying that error's message (and
the thirteen messages are pairwise distinct), any other non-nil error yields
HTTP 500, and a nil error yields HTTP 200 with the fleet result; the handler
issues exactly this one response and never retries. -/
theorem sendFleet_error_dispatch :
    (∀ e : FleetErr, e.isPrecondition = true →
      sendFleetRespond (Except.error e) = (400, ErrorResp 400 e.message)) ∧
    (∀ e : FleetErr, e.isPrecondition = false →
      sendFleetRespond (Except.error e) = (500, ErrorResp 500 e.message)) ∧
    (∀ fl : Fleet, sendFleetRespond (Except.ok fl) = (200, SuccessResp (some fl))) ∧
    (preconditionErrList.map FleetErr.message).Nodup ∧
    preconditionErrList.length = 13 ∧
    (∀ e ∈ preconditionErrList, e.isPrecondition = true) := by
  refine ⟨?_, ?_, fun fl => rfl, by decide, by decide, by decide⟩
  · intro e he
    simp [sendFleetRespond, he]
  · intro e he
    simp [sendFleetRespond, he]

/-- Witness for C1: the "no debris field" precondition error produces the
400 response carrying its message. -/
theorem sendFleet_error_dispatch_witness :
    sendFleetRespond (Except.error FleetErr.noDebrisField) =
      (400, ErrorResp 400 FleetErr.noDebrisField.message) :=
  sendFleet_error_dispatch.1 FleetErr.noDebrisField rfl

/-! ## Claim C2 -/

/-- C2: a fleet-send form without any `ships` entry reaches `bot.SendFleet`
with an empty ship list, and the operation fails with the "no ship selected"
precondition having issued zero remote requests. -/
theorem sendFleet_emptyShips_noNetwork (form : List (String × List String))
    (st : SFState)
    (h : parseSendFleetForm form initialSFState = Except.ok st)
    (hk : hasKey form "ships" = false) :
    st.ships = [] ∧
    sendFleetModel st = (Except.error FleetErr.noShipSelected, 0) := by
  have H := parseSendFleetForm_fields form initialSFState st h
  have hships : st.ships = [] :=
    H.1 (not_hasKey_keyField form FormField.ships (by decide) hk)
  refine ⟨hships, ?_⟩
  rw [sendFleetModel, hships]
  rfl

/-- Witness for C2: the concrete form carrying only a `speed` field parses
successfully and sending fails with "no ship selected" and zero requests. -/
theorem sendFleet_emptyShips_noNetwork_witness :
    ({ initialSFState with speed := 5 } : SFState).ships = [] ∧
    sendFleetModel { initialSFState with speed := 5 } =
      (Except.error FleetErr.noShipSelected, 0) :=
  sendFleet_emptyShips_noNetwork [("speed", ["5"])]
    { initialSFState with speed := 5 } (by rfl) (by rfl)

/-! ## Claim C10 -/

/-- C10: a fleet-send form that omits a field dispatches the intent with the
defaults mission `Transport`, speed `HundredPercent`, destination type
`PlanetType`, zero metal/crystal/deuterium cargo, duration 0 and union id 0;
and each of these values differs from its default only if the corresponding
field was supplied. -/
theorem sendFleet_form_defaults (form : List (String × List String))
    (st : SFState)
    (h : parseSendFleetForm form initialSFState = Except.ok st) :
    (hasKey form "mission" = false → st.mission = Transport) ∧
    (hasKey form "speed" = false → st.speed = HundredPercent) ∧
    (hasKey form "type" = false → st.whereC.ctype = PlanetType) ∧
    (hasKey form "metal" = false → st.payload.metal = 0) ∧
    (hasKey form "crystal" = false → st.payload.crystal = 0) ∧
    (hasKey form "deuterium" = false → st.payload.deuterium = 0) ∧
    (hasKey form "duration" = false → st.duration = 0) ∧
    (hasKey form "union" = false → st.unionID = 0) ∧
    (st.mission ≠ Transport → hasKey form "mission" = true) ∧
    (st.speed ≠ HundredPercent → hasKey form "speed" = true) ∧
    (st.whereC.ctype ≠ PlanetType → hasKey form "type" = true) ∧
    (st.payload.metal ≠ 0 → hasKey form "metal" = true) ∧
    (st.payload.crystal ≠ 0 → hasKey form "crystal" = true) ∧
    (st.payload.deuterium ≠ 0 → hasKey form "deuterium" = true) ∧
    (st.duration ≠ 0 → hasKey form "duration" = true) ∧
    (st.unionID ≠ 0 → hasKey form "union" = true) := by
  obtain ⟨a1, a2, a3, a4, a5, a6, a7, a8, a9⟩ :=
    parseSendFleetForm_fields form initialSFState st h
  have f1 : hasKey form "mission" = false → st.mission = Transport :=
    fun hk => a3 (not_hasKey_keyField form FormField.mission (by decide) hk)
  have f2 : hasKey form "speed" = false → st.speed = HundredPercent :=
    fun hk => a2 (not_hasKey_keyField form FormField.speed (by decide) hk)
  have f3 : hasKey form "type" = false → st.whereC.ctype = PlanetType :=
    fun hk => a4 (not_hasKey_keyField form FormField.ctypeF (by decide) hk)
  have f4 : hasKey form "metal" = false → st.payload.metal = 0 :=
    fun hk => a5 (not_hasKey_keyField form FormField.metal (by decide) hk)
  have f5 : hasKey form "crystal" = false → st.payload.crystal = 0 :=
    fun hk => a6 (not_hasKey_keyField form FormField.crystal (by decide) hk)
  have f6 : hasKey form "deuterium" = false → st.payload.deuterium = 0 :=
    fun hk => a7 (not_hasKey_keyField form FormField.deuterium (by decide) hk)
  have f7 : hasKey form "duration" = false → st.duration = 0 :=
    fun hk => a8 (not_hasKey_keyField form FormField.duration (by decide) hk)
  have f8 : hasKey form "union" = false → st.unionID = 0 :=
    fun hk => a9 (not_hasKey_keyField form FormField.unionF (by decide) hk)
  refine ⟨f1, f2, f3, f4, f5, f6, f7, f8, ?_, ?_, ?_, ?_, ?_, ?_, ?_, ?_⟩ <;>
    intro hne
  · rcases Bool.eq_false_or_eq_true (hasKey form "mission") with hb | hb
    · exact hb
    · exact absurd (f1 hb) hne
  · rcases Bool.eq_false_or_eq_true (hasKey form "speed") with hb | hb
    · exact hb
    · exact absurd (f2 hb) hne
  · rcases Bool.eq_false_or_eq_true (hasKey form "type") with hb | hb
    · exact hb
    · exact absurd (f3 hb) hne
  · rcases Bool.eq_false_or_eq_true (hasKey form "metal") with hb | hb
    · exact hb
    · exact absurd (f4 hb) hne
  · rcases Bool.eq_false_or_eq_true (hasKey form "crystal") with hb | hb
    · exact hb
    · exact absurd (f5 hb) hne
  · rcases Bool.eq_false_or_eq_true (hasKey form "deuterium") with hb | hb
    · exact hb
    · exact absurd (f6 hb) hne
  · rcases Bool.eq_false_or_eq_true (hasKey form "duration") with hb | hb
    · exact hb
    · exact absurd (f7 hb) hne
  · rcases Bool.eq_false_or_eq_true (hasKey form "union") with hb | hb
    · exact hb
    · exact absurd (f8 hb) hne

/-- Witness for C10: a concrete form supplying only `galaxy` parses to a
state keeping every default (mission Transport, speed 100 percent, planet
destination type, empty cargo, zero duration and union id). -/
theorem sendFleet_form_defaults_witness :
    parseSendFleetForm [("galaxy", ["4"])] initialSFState =
      Except.ok { initialSFState with
                  whereC := { initialSFState.whereC with galaxy := 4 } } ∧
    ({ initialSFState with
       whereC := { initialSFState.whereC with galaxy := 4 } } : SFState).mission
      = Transport ∧
    ({ initialSFState with
       whereC := { initialSFState.whereC with galaxy := 4 } } : SFState).speed
      = HundredPercent := by
  have h : parseSendFleetForm [("galaxy", ["4"])] initialSFState =
      Except.ok { initialSFState with
                  whereC := { initialSFState.whereC with galaxy := 4 } } := by rfl
  have H := sendFleet_form_defaults [("galaxy", ["4"])] _ h
  exact ⟨h, H.1 (by rfl), H.2.1 (by rfl)⟩

/-! ## LoginHandler (claim C8) -/

/-- The failures `LoginHandler` distinguishes (`part_000` lines 101-111):
the ogame library's `ErrBadCredentials` value, and any other error with its
message.  The error value itself lives outside `src/`. -/
inductive LoginError
  | badCredentials
  | other (msg : String)
deriving DecidableEq

/-- Modelled from the spec: the `err.Error()` text of each login failure;
`ErrBadCredentials` (not under `src/`) carries a fixed message. -/
def LoginError.message : LoginError → String
  | .badCredentials => "bad credentials"
  | .other m => m

/-- Model of `LoginHandler` (`part_000` lines 101-111): the response written
for each outcome of `bot.LoginWithExistingCookies()`. -/
def loginHandler (res : Option LoginError) : Nat × APIResp Unit :=
  match res with
  | some LoginError.badCredentials =>
    (400, ErrorResp 400 LoginError.badCredentials.message)
  | some e => (500, ErrorResp 500 e.message)
  | none => (200, SuccessResp none)

/-- C8: `LoginHandler` reports `ErrBadCredentials`, and only it, as the
HTTP 400 bad-credentials failure; every other failure (proxy or network
outages included) becomes HTTP 500 with its own message and is never
reported as bad credentials; success gives HTTP 200. -/
theorem login_badCredentials_classified :
    loginHandler (some LoginError.badCredentials) =
      (400, ErrorResp 400 LoginError.badCredentials.message) ∧
    (∀ e : LoginError, e ≠ LoginError.badCredentials →
      loginHandler (some e) = (500, ErrorResp 500 e.message)) ∧
    loginHandler none = (200, SuccessResp none) ∧
    (∀ e : LoginError, e ≠ LoginError.badCredentials →
      (loginHandler (some e)).1 ≠ 400) := by
  refine ⟨rfl, ?_, rfl, ?_⟩
  · intro e he
    cases e with
    | badCredentials => exact absurd rfl he
    | other m => rfl
  · intro e he
    cases e with
    | badCredentials => exact absurd rfl he
    | other m => simp [loginHandler]

/-- Witness for C8: a proxy outage is reported as HTTP 500 with its own
message, not as bad credentials. -/
theorem login_badCredentials_classified_witness :
    loginHandler (some (LoginError.other "proxyconnect tcp: connection refused")) =
      (500, ErrorResp 500 "proxyconnect tcp: connection refused") :=
  login_badCredentials_classified.2.1
    (LoginError.other "proxyconnect tcp: connection refused") (by decide)

/-! ## GetCaptchaHandler: the second-factor header (claim C5) -/

/-- The `totp.ValidateOpts` fields the handler sets (`part_000` lines
1600-1605); the algorithm is SHA1 in both the code and this model. -/
structure ValidateOpts where
  period : Nat
  skew : Nat
  digits : Nat
deriving DecidableEq

/-- Model of the external `totp.GenerateCodeCustom`: a time-based code over
the secret, the current time bucketed by `period`, and `digits` digits.  The
library is a third-party dependency; only its interface matters to the
claim: it either fails (non-base32 secret) or returns a code determined by
secret, time bucket and options. -/
def totpGenerateCodeCustom (secret : String) (now : Nat) (opts : ValidateOpts) :
    Except String String :=
  if secret.data.all (fun c => c.isUpper || c.isDigit) = false then
    Except.error "Decoding of secret as base32 failed."
  else
    Except.ok (toString ((secret.data.foldl (fun a c => a * 131 + c.toNat) 7
      + now / opts.period) % (10 ^ opts.digits)))

/-- What building the `POST /sessions` request can produce
(`part_000` lines 1594-1614): an error page when code generation fails, or
the request with its header list. -/
inductive CaptchaBuildResult
  | errorPage (msg : String)
  | request (headers : List (String × String))
deriving DecidableEq

/-- The two headers every sessions request carries
(`part_000` lines 1613-1614). -/
def sessionsBaseHeaders : List (String × String) :=
  [("Content-Type", "application/x-www-form-urlencoded"),
   ("Accept-Encoding", "gzip, deflate, br")]

/-- Model of the header-building part of `GetCaptchaHandler`
(`part_000` lines 1594-1614): when `bot.otpSecret` is non-empty, a one-time
code generated with period 30, skew 1 and six digits is attached as the
`tnt-2fa-code` header (plus an empty `tnt-installation-id`); when it is
empty, no second-factor header is attached. -/
def getCaptchaBuildSessionsRequest (otpSecret : String) (now : Nat) :
    CaptchaBuildResult :=
  if otpSecret ≠ "" then
    match totpGenerateCodeCustom otpSecret now
        { period := 30, skew := 1, digits := 6 } with
    | Except.error e => CaptchaBuildResult.errorPage e
    | Except.ok passcode =>
      CaptchaBuildResult.request
        ([("tnt-2fa-code", passcode), ("tnt-installation-id", "")]
          ++ sessionsBaseHeaders)
  else
    CaptchaBuildResult.request sessionsBaseHeaders

/-- C5: with a non-empty second-factor seed the sessions request carries the
`tnt-2fa-code` header holding exactly the code computed with a 30-second
period, skew 1 and six digits; with an empty seed the request carries no
such header. -/
theorem captcha_2fa_header (otpSecret : String) (now : Nat) (code : String)
    (hs : otpSecret ≠ "")
    (hc : totpGenerateCodeCustom otpSecret now
        { period := 30, skew := 1, digits := 6 } = Except.ok code) :
    getCaptchaBuildSessionsRequest otpSecret now =
      CaptchaBuildResult.request
        ([("tnt-2fa-code", code), ("tnt-installation-id", "")]
          ++ sessionsBaseHeaders) ∧
    (∀ t : Nat, getCaptchaBuildSessionsRequest "" t =
        CaptchaBuildResult.request sessionsBaseHeaders) ∧
    List.lookup "tnt-2fa-code" sessionsBaseHeaders = none := by
  refine ⟨?_, fun t => rfl, by decide⟩
  rw [getCaptchaBuildSessionsRequest, if_pos hs, hc]

/-- Witness for C5: the concrete seed "OTPSEED2" at time 65 produces a
sessions request whose `tnt-2fa-code` header holds the generated code. -/
theorem captcha_2fa_header_witness :
    ("OTPSEED2" : String) ≠ "" ∧
    getCaptchaBuildSessionsRequest "OTPSEED2" 65 =
      CaptchaBuildResult.request
        ([("tnt-2fa-code",
           (match totpGenerateCodeCustom "OTPSEED2" 65
               { period := 30, skew := 1, digits := 6 } with
            | Except.ok c => c
            | Except.error _ => "")),
          ("tnt-installation-id", "")] ++ sessionsBaseHeaders) := by
  refine ⟨by decide, ?_⟩
  exact (captcha_2fa_header "OTPSEED2" 65 _ (by decide) (by rfl)).1

/-! ## GetCaptchaSolverHandler (claim C6) -/

/-- The bot fields `GetCaptchaSolverHandler` reads and writes
(`part_000` lines 1707-1738). -/
structure SolverBotState where
  challengeID : String
  loggedIn : Bool
deriving DecidableEq

/-- Everything observable about one run of `GetCaptchaSolverHandler`:
the updated challenge id, whether a login was attempted, how many
answer-submission requests and additional status polls were issued, and the
HTTP status written. -/
structure SolverOutcome where
  newChallengeID : String
  loginAttempted : Bool
  submitRequests : Nat
  extraStatusPolls : Nat
  httpStatus : Nat
deriving DecidableEq

/-- Model of `GetCaptchaSolverHandler` (`part_000` lines 1707-1738): one
POST submits the answer and its response body carries the reported status;
the challenge id is cleared iff that status is "solved"; then, whenever the
bot is not logged in, `LoginWithExistingCookies` is attempted regardless of
the status (`loginOk` is that attempt's outcome), answering 409 on failure
and 200 otherwise.  No further status request is ever issued. -/
def getCaptchaSolverHandler (bot : SolverBotState) (reportedStatus : String)
    (loginOk : Bool) : SolverOutcome :=
  { newChallengeID := if reportedStatus = "solved" then "" else bot.challengeID
    loginAttempted := !bot.loggedIn
    submitRequests := 1
    extraStatusPolls := 0
    httpStatus := if !bot.loggedIn && !loginOk then 409 else 200 }

/-- Counterexample for C6: with a reported status of "pending" (not
"solved") the handler still resumes login immediately and issues no further
status poll — it neither polls until "solved" nor gates login on it. -/
theorem captcha_solver_counterexample :
    ("pending" : String) ≠ "solved" ∧
    (getCaptchaSolverHandler
      { challengeID := "chal-1", loggedIn := false } "pending" true).loginAttempted
      = true ∧
    (getCaptchaSolverHandler
      { challengeID := "chal-1", loggedIn := false } "pending" true).extraStatusPolls
      = 0 ∧
    (getCaptchaSolverHandler
      { challengeID := "chal-1", loggedIn := false } "pending" true).newChallengeID
      = "chal-1" := by
  refine ⟨by decide, rfl, rfl, by decide⟩

/-- C6 (amended): the solver submits the selected answer exactly once and
issues no further status polls; the challenge identifier is cleared exactly
when the reported status is "solved"; and login is resumed whenever the bot
is not logged in, independently of the reported status. -/
theorem captcha_solver_behaviour (bot : SolverBotState) (reportedStatus : String)
    (loginOk : Bool) :
    (getCaptchaSolverHandler bot reportedStatus loginOk).submitRequests = 1 ∧
    (getCaptchaSolverHandler bot reportedStatus loginOk).extraStatusPolls = 0 ∧
    (getCaptchaSolverHandler bot reportedStatus loginOk).newChallengeID
      = (if reportedStatus = "solved" then "" else bot.challengeID) ∧
    (getCaptchaSolverHandler bot reportedStatus loginOk).loginAttempted
      = !bot.loggedIn := by
  exact ⟨rfl, rfl, rfl, rfl⟩

/-! ## Handlers that drop the bot error (claim C7) -/

/-- Model of `PageContentHandler` (`part_000` lines 92-99): a form-parse
failure gives HTTP 400; otherwise the pair returned by
`bot.GetPageContent` has its error component discarded
(`pageHTML, _ :=`) and the page is returned as a success. -/
def pageContentHandler (formErr : Option String)
    (getPage : String × Option String) : Nat × APIResp String :=
  match formErr with
  | some e => (400, ErrorResp 400 e)
  | none => (200, SuccessResp (some getPage.1))

/-- Model of `GetFleetsHandler` (`part_000` lines 257-261): the error
component of `bot.GetFleets()` is discarded (`fleets, _ :=`) and the fleet
list is returned as a success. -/
def getFleetsHandler (res : List Fleet × Option String) :
    Nat × APIResp (List Fleet) :=
  (200, SuccessResp (some res.1))

/-- Model of `GetFromGameHandler` (`part_000` lines 1211-1233): both the
error branch (`c.HTMLBlob(http.StatusOK, ...)` on the error text, whose
return value is discarded) and the final return write HTTP 200, so the
status is 200 whatever the error. -/
def getFromGameHandlerStatus (_err : Option String) : Nat := 200

/-- Model of `IsUnderAttackHandler` (`part_000` lines 157-164), a handler
that does classify the bot failure: non-nil error gives HTTP 500. -/
def isUnderAttackHandler (res : Except String Bool) : Nat × APIResp Bool :=
  match res with
  | Except.error e => (500, ErrorResp 500 e)
  | Except.ok b => (200, SuccessResp (some b))

/-- Counterexample for C7: with the underlying operation failing ("proxy
down", a non-nil error), `PageContentHandler` and `GetFleetsHandler` still
answer HTTP 200 with status "ok", and `GetFromGameHandler` still writes
HTTP 200 — the failure is swallowed into an apparent success. -/
theorem swallowed_errors_counterexample :
    (pageContentHandler none ("", some "proxy down")).1 = 200 ∧
    (pageContentHandler none ("", some "proxy down")).2.status = "ok" ∧
    (getFleetsHandler ([], some "proxy down")).1 = 200 ∧
    (getFleetsHandler ([], some "proxy down")).2.status = "ok" ∧
    getFromGameHandlerStatus (some "proxy down") = 200 := by
  exact ⟨rfl, rfl, rfl, rfl, rfl⟩

/-- C7 (amended): handlers such as `IsUnderAttackHandler` do turn a non-nil
bot error into an error response (HTTP 500), but `PageContentHandler`,
`GetFleetsHandler` and `GetFromGameHandler` discard the bot operation's
error and always produce an HTTP 200 success response, whatever the
error. -/
theorem swallowed_errors_behaviour :
    (∀ page : String, ∀ err : Option String,
      pageContentHandler none (page, err) = (200, SuccessResp (some page))) ∧
    (∀ fleets : List Fleet, ∀ err : Option String,
      getFleetsHandler (fleets, err) = (200, SuccessResp (some fleets))) ∧
    (∀ err : Option String, getFromGameHandlerStatus err = 200) ∧
    (∀ e : String, isUnderAttackHandler (Except.error e) = (500, ErrorResp 500 e)) := by
  exact ⟨fun _ _ => rfl, fun _ _ => rfl, fun _ => rfl, fun _ => rfl⟩

/-! ## Page extraction (claims C3 and C4) -/

/-- Model of `ogame.Researches` restricted to representative technology
levels (the full struct lives in the ogame library, outside `src/`).  A
level absent from the page reads as 0. -/
structure Researches where
  energyTechnology : Int := 0
  laserTechnology : Int := 0
  computerTechnology : Int := 0
  astrophysics : Int := 0
deriving DecidableEq

/-- Model of `ogame.ResourcesBuildings` restricted to representative
building levels. -/
structure ResourcesBuildings where
  metalMine : Int := 0
  crystalMine : Int := 0
  deuteriumSynthesizer : Int := 0
  solarPlant : Int := 0
deriving DecidableEq

/-- Model of `ogame.ResourcesDetails` restricted to the available amounts. -/
structure ResourcesDetails where
  metalAvailable : Int := 0
  crystalAvailable : Int := 0
  deuteriumAvailable : Int := 0
deriving DecidableEq

/-- Model of the eight values `ExtractConstructions` returns
(`pkg/extractor/v7/extractor.go` lines 98-101); all zero when the page shows
no running construction. -/
structure Constructions where
  buildingID : Int := 0
  buildingCountdown : Int := 0
  researchID : Int := 0
  researchCountdown : Int := 0
  lfBuildingID : Int := 0
  lfBuildingCountdown : Int := 0
  lfResearchID : Int := 0
  lfResearchCountdown : Int := 0
deriving DecidableEq

/-- The supplies-page markup carrying building levels, tagged by the
frontend generation that produced it: `baseGen` is the predecessor (v6)
layout — the markup unchanged in v7 — and `v7Gen` is the layout only the v7
replacement understands. -/
inductive SuppliesMarkup
  | baseGen (b : ResourcesBuildings)
  | v7Gen (b : ResourcesBuildings)
deriving DecidableEq

/-- The parsed document: what a `goquery.Document` holds of the fields the
claims touch.  Selecting markup absent from the document yields the zero
value, as goquery selections do. -/
structure Doc where
  researchMarkup : Option Researches := none
  researchMarkupV6 : Option Researches := none
  suppliesMarkup : Option SuppliesMarkup := none
  resourcesDetailsMarkup : Option ResourcesDetails := none
  constructionMarkup : Option (Int × Int) := none
  fleetIDs : List Int := []
  attackIDs : List Int := []
  timestamp : Int := 0
deriving DecidableEq

/-- A raw page: bytes that parse as a document, or malformed bytes that do
not. -/
inductive RawPage
  | valid (d : Doc)
  | malformed (bytes : String)
deriving DecidableEq

/-- Model of `goquery.NewDocumentFromReader`: the pair `(doc, err)` the
library returns.  On bytes that fail to parse it returns an empty document
together with a non-nil error — which every caller in
`pkg/extractor/v7/extractor.go` discards (`doc, _ :=`). -/
def goqueryNewDocumentFromReader : RawPage → Doc × Option String
  | RawPage.valid d => (d, none)
  | RawPage.malformed _ => ({}, some "html parse error")

namespace V6

/-- Modelled from the spec: the v6 `extractResearchFromDoc` (the predecessor
generation's research extraction; `pkg/extractor/v6` is not under `src/`):
it reads the v6-layout research markup, absent fields reading as zero. -/
def extractResearchFromDoc (d : Doc) : Researches :=
  d.researchMarkupV6.getD {}

/-- Modelled from the spec: the v6 `ExtractResearch`; like every extraction
method it parses the bytes, discarding the parse error, and delegates. -/
def ExtractResearch (p : RawPage) : Researches :=
  extractResearchFromDoc (goqueryNewDocumentFromReader p).1

/-- Modelled from the spec: the v6 `extractResourcesBuildingsFromDoc`
(not under `src/`): it understands only the base-generation supplies layout
and reports an error on anything else. -/
def extractResourcesBuildingsFromDoc (d : Doc) : Except String ResourcesBuildings :=
  match d.suppliesMarkup with
  | some (SuppliesMarkup.baseGen b) => Except.ok b
  | _ => Except.error "invalid planet"

/-- Modelled from the spec: the v6 `ExtractResourcesBuildings`. -/
def ExtractResourcesBuildings (p : RawPage) : Except String ResourcesBuildings :=
  extractResourcesBuildingsFromDoc (goqueryNewDocumentFromReader p).1

/-- Modelled from the spec: the v6 `ExtractFleets`, an operation v7 does not
replace. -/
def ExtractFleets (p : RawPage) : List Int :=
  (goqueryNewDocumentFromReader p).1.fleetIDs

/-- Modelled from the spec: the v6 `ExtractAttacks`, an operation v7 does
not replace. -/
def ExtractAttacks (p : RawPage) : List Int :=
  (goqueryNewDocumentFromReader p).1.attackIDs

/-- Modelled from the spec: the v6 `ExtractOGameTimestamp`, an operation v7
does not replace. -/
def ExtractOGameTimestamp (p : RawPage) : Int :=
  (goqueryNewDocumentFromReader p).1.timestamp

end V6

namespace V7

/-- Modelled from the spec: the v7 `extractResearchFromDoc` helper
(lowercase, not under `src/`): reads the v7-layout research markup, absent
fields reading as zero. -/
def extractResearchFromDoc (d : Doc) : Researches :=
  d.researchMarkup.getD {}

/-- Model of the v7 `ExtractResearch` method
(`pkg/extractor/v7/extractor.go` lines 63-67): parse the bytes, discard the
parse error (`doc, _ :=`), delegate to the doc extractor.  Its return type
carries no error outcome. -/
def ExtractResearch (p : RawPage) : Researches :=
  extractResearchFromDoc (goqueryNewDocumentFromReader p).1

/-- Modelled from the spec: the v7
`extractResourcesDetailsFromFullPageFromDoc` helper (not under `src/`):
reads the resource amounts, absent fields reading as zero. -/
def extractResourcesDetailsFromFullPageFromDoc (d : Doc) : ResourcesDetails :=
  d.resourcesDetailsMarkup.getD {}

/-- Model of the v7 `ExtractResourcesDetailsFromFullPage` method
(`pkg/extractor/v7/extractor.go` lines 28-32): parse, discard the parse
error, delegate.  Its return type carries no error outcome. -/
def ExtractResourcesDetailsFromFullPage (p : RawPage) : ResourcesDetails :=
  extractResourcesDetailsFromFullPageFromDoc (goqueryNewDocumentFromReader p).1

/-- Modelled from the spec: the exported v7 `ExtractConstructions` helper
taking a clock (not under `src/`): reads the construction markup and turns
the finish time into a countdown against `now`; a page without recognizable
construction markup yields all zeroes. -/
def ExtractConstructionsAt (p : RawPage) (now : Int) : Constructions :=
  match (goqueryNewDocumentFromReader p).1.constructionMarkup with
  | some idFinish =>
    { buildingID := idFinish.1, buildingCountdown := idFinish.2 - now }
  | none => {}

/-- Model of the v7 `ExtractConstructions` method
(`pkg/extractor/v7/extractor.go` lines 98-101): delegates to the helper with
the real clock, passed here as `now`.  Its return values carry no error
outcome. -/
def ExtractConstructions (p : RawPage) (now : Int) : Constructions :=
  ExtractConstructionsAt p now

/-- Modelled from the spec: the v7 `extractResourcesBuildingsFromDoc` helper
(not under `src/`): the building-level markup is unchanged from the base
generation — on it the helper reads the very same levels — and the v7-only
layout is also understood (the reason this operation is replaced). -/
def extractResourcesBuildingsFromDoc (d : Doc) : Except String ResourcesBuildings :=
  match d.suppliesMarkup with
  | some (SuppliesMarkup.baseGen b) => Except.ok b
  | some (SuppliesMarkup.v7Gen b) => Except.ok b
  | none => Except.error "invalid planet"

/-- Model of the v7 `ExtractResourcesBuildings` method
(`pkg/extractor/v7/extractor.go` lines 87-91). -/
def ExtractResourcesBuildings (p : RawPage) : Except String ResourcesBuildings :=
  extractResourcesBuildingsFromDoc (goqueryNewDocumentFromReader p).1

end V7

/-- The extraction-operation table of one frontend generation, restricted to
a representative subset: two operations v7 replaces
(`extractResearch`, `extractResourcesBuildings`) and three it does not
(`extractFleets`, `extractAttacks`, `extractOgameTimestamp`). -/
structure ExtractorOps where
  extractResearch : RawPage → Researches
  extractResourcesBuildings : RawPage → Except String ResourcesBuildings
  extractFleets : RawPage → List Int
  extractAttacks : RawPage → List Int
  extractOgameTimestamp : RawPage → Int

/-- Modelled from the spec: the v6 (base-generation) operation table. -/
def v6Ops : ExtractorOps :=
  { extractResearch := V6.ExtractResearch
    extractResourcesBuildings := V6.ExtractResourcesBuildings
    extractFleets := V6.ExtractFleets
    extractAttacks := V6.ExtractAttacks
    extractOgameTimestamp := V6.ExtractOGameTimestamp }

/-- The v7 operation table, built exactly as
`pkg/extractor/v7/extractor.go` builds the v7 `Extractor`: the v6 table with
only the explicitly replaced operations overridden — Go promotes every other
method from the embedded `v6.Extractor` (lines 13-16). -/
def v7Ops : ExtractorOps :=
  { v6Ops with
    extractResearch := V7.ExtractResearch
    extractResourcesBuildings := V7.ExtractResourcesBuildings }

/-! ## Claim C3 -/

/-- C3: the v7 extractor is a delta over v6 — every operation it does not
override is literally its predecessor's (Go method promotion through the
embedded `v6.Extractor`), it differs only on the operations it explicitly
replaces, and on a base-generation resources page (the building-level markup
unchanged in v7) both generations return identical building levels. -/
theorem v7_delta_over_v6 :
    v7Ops.extractFleets = v6Ops.extractFleets ∧
    v7Ops.extractAttacks = v6Ops.extractAttacks ∧
    v7Ops.extractOgameTimestamp = v6Ops.extractOgameTimestamp ∧
    (∀ (d : Doc) (b : ResourcesBuildings),
      d.suppliesMarkup = some (SuppliesMarkup.baseGen b) →
      v7Ops.extractResourcesBuildings (RawPage.valid d) = Except.ok b ∧
      v6Ops.extractResourcesBuildings (RawPage.valid d) = Except.ok b) ∧
    v7Ops.extractResourcesBuildings
        (RawPage.valid { suppliesMarkup := some (SuppliesMarkup.v7Gen {}) }) ≠
      v6Ops.extractResourcesBuildings
        (RawPage.valid { suppliesMarkup := some (SuppliesMarkup.v7Gen {}) }) := by
  refine ⟨rfl, rfl, rfl, ?_, by intro hc; exact Except.noConfusion hc⟩
  intro d b hd
  constructor
  · show V7.ExtractResourcesBuildings (RawPage.valid d) = Except.ok b
    rw [V7.ExtractResourcesBuildings, V7.extractResourcesBuildingsFromDoc]
    rw [show (goqueryNewDocumentFromReader (RawPage.valid d)).1 = d from rfl, hd]
  · show V6.ExtractResourcesBuildings (RawPage.valid d) = Except.ok b
    rw [V6.ExtractResourcesBuildings, V6.extractResourcesBuildingsFromDoc]
    rw [show (goqueryNewDocumentFromReader (RawPage.valid d)).1 = d from rfl, hd]

/-- A concrete set of building levels used by the C3 witness. -/
def sampleLevels : ResourcesBuildings :=
  { metalMine := 20, crystalMine := 17, deuteriumSynthesizer := 15, solarPlant := 18 }

/-- A concrete base-generation resources page used by the C3 witness. -/
def baseGenResourcesPage : Doc :=
  { suppliesMarkup := some (SuppliesMarkup.baseGen sampleLevels) }

/-- Witness for C3: on the concrete base-generation resources page both
generations extract the same building levels. -/
theorem v7_delta_over_v6_witness :
    v7Ops.extractResourcesBuildings (RawPage.valid baseGenResourcesPage) =
      Except.ok sampleLevels ∧
    v6Ops.extractResourcesBuildings (RawPage.valid baseGenResourcesPage) =
      Except.ok sampleLevels :=
  v7_delta_over_v6.2.2.2.1 baseGenResourcesPage sampleLevels rfl

/-! ## Claim C4 -/

/-- Counterexample for C4: on the malformed page "garbage", which fails to
parse as a document (the parse returns a non-nil error), `ExtractResearch`
returns the plain zero `Researches` value — indistinguishable from a
genuinely empty valid page — and `ExtractConstructions` and
`ExtractResourcesDetailsFromFullPage` likewise return zero values; none of
the three reports any parse-error outcome, their return types having no
error component. -/
theorem extract_silent_default_counterexample :
    (goqueryNewDocumentFromReader (RawPage.malformed "garbage")).2.isSome = true ∧
    V7.ExtractResearch (RawPage.malformed "garbage") = ({} : Researches) ∧
    V7.ExtractResearch (RawPage.malformed "garbage") =
      V7.ExtractResearch (RawPage.valid {}) ∧
    V7.ExtractConstructions (RawPage.malformed "garbage") 1000 =
      ({} : Constructions) ∧
    V7.ExtractResourcesDetailsFromFullPage (RawPage.malformed "garbage") =
      ({} : ResourcesDetails) := by
  refine ⟨rfl, rfl, rfl, by decide, rfl⟩

/-- C4 (amended): `ExtractResearch`, `ExtractConstructions` and
`ExtractResourcesDetailsFromFullPage` return only a typed value with no
explicit error outcome; the document parse error is discarded
(`doc, _ :=`), so every input that fails to parse as a document yields
exactly the extraction of the empty document — the zero values — with no
signal distinguishing it from genuinely empty data. -/
theorem extract_silent_default (bytes : String) (now : Int) :
    V7.ExtractResearch (RawPage.malformed bytes) =
      V7.extractResearchFromDoc {} ∧
    V7.ExtractResearch (RawPage.malformed bytes) = ({} : Researches) ∧
    V7.ExtractConstructions (RawPage.malformed bytes) now = ({} : Constructions) ∧
    V7.ExtractResourcesDetailsFromFullPage (RawPage.malformed bytes) =
      ({} : ResourcesDetails) ∧
    (goqueryNewDocumentFromReader (RawPage.malformed bytes)).2 =
      some "html parse error" := by
  exact ⟨rfl, rfl, rfl, rfl, rfl⟩
